import Mathlib

/-!
Verification of the corpus acquisition engine of the cltk repository
(`src/cltk/corpus/utils/importer.py`), as a shallow embedding.

Filesystem state is modelled as a tree of named entries; the side effects of
`import_corpus` (directory creation, git clone and pull, recursive delete,
recursive copy, log lines) are recorded as an event trace next to the
resulting filesystem.  Exceptions are modelled by an `Option PyError`
component of the result: `none` means the Python call returned normally.
-/

namespace Cltk

/-- A filesystem path, as the list of its components under the root. -/
abbrev Path := List String

/-- A filesystem tree: a regular file with contents, or a directory with a
list of named entries. -/
inductive FSNode where
  | file (content : String)
  | dir (entries : List (String × FSNode))

/-- First-match association-list lookup (models dict and directory-entry
lookup; entry names are unique in well-formed trees). -/
def assocFind {α : Type} (es : List (String × α)) (k : String) : Option α :=
  match es with
  | [] => none
  | (k2, v) :: rest => if k2 = k then some v else assocFind rest k

/-- Replace the binding of `k` (first occurrence) or append it. -/
def assocSet {α : Type} (es : List (String × α)) (k : String) (v : α) :
    List (String × α) :=
  match es with
  | [] => [(k, v)]
  | (k2, v2) :: rest => if k2 = k then (k, v) :: rest else (k2, v2) :: assocSet rest k v

/-- Drop every binding of `k` (entry names are unique in a real directory, so
this removes the one entry). -/
def assocErase {α : Type} (es : List (String × α)) (k : String) :
    List (String × α) :=
  es.filter (fun e => !(e.1 = k))

/-- The entry list of a node (a file has none). -/
def FSNode.entriesOf : FSNode → List (String × FSNode)
  | FSNode.file _ => []
  | FSNode.dir es => es

/-- Resolve a path in a tree, descending through directories only. -/
def FSNode.lookup : FSNode → Path → Option FSNode
  | t, [] => some t
  | FSNode.file _, _ :: _ => none
  | FSNode.dir es, k :: ks =>
    match assocFind es k with
    | some c => FSNode.lookup c ks
    | none => none

/-- `os.path.isfile`: the path resolves to a regular file. -/
def FSNode.isfile (t : FSNode) (p : Path) : Bool :=
  match t.lookup p with
  | some (FSNode.file _) => true
  | _ => false

/-- `os.path.isdir`: the path resolves to a directory. -/
def FSNode.isdir (t : FSNode) (p : Path) : Bool :=
  match t.lookup p with
  | some (FSNode.dir _) => true
  | _ => false

/-- Install `v` at path `p`, creating intermediate directories as needed
(the effect of a successful clone or recursive copy into a fresh target). -/
def FSNode.putPath : FSNode → Path → FSNode → FSNode
  | _, [], v => v
  | t, k :: ks, v =>
    FSNode.dir (assocSet t.entriesOf k
      (FSNode.putPath ((assocFind t.entriesOf k).getD (FSNode.dir [])) ks v))

/-- Remove the entry at path `p` (the effect of `shutil.rmtree`). -/
def FSNode.removePath : FSNode → Path → FSNode
  | t, [] => t
  | t, [k] => FSNode.dir (assocErase t.entriesOf k)
  | t, k :: k2 :: ks =>
    FSNode.dir (assocSet t.entriesOf k
      (FSNode.removePath ((assocFind t.entriesOf k).getD (FSNode.dir [])) (k2 :: ks)))

/-- `os.makedirs`: create every missing directory along `p`, keeping whatever
already exists. -/
def FSNode.makedirs : FSNode → Path → FSNode
  | t, [] => t
  | t, k :: ks =>
    FSNode.dir (assocSet t.entriesOf k
      (FSNode.makedirs ((assocFind t.entriesOf k).getD (FSNode.dir [])) ks))

theorem assocFind_assocSet {α : Type} (es : List (String × α)) (k : String) (v : α) :
    assocFind (assocSet es k v) k = some v := by
  induction es with
  | nil => simp [assocSet, assocFind]
  | cons e rest ih =>
    by_cases h : e.1 = k
    · simp [assocSet, assocFind, h]
    · simp [assocSet, assocFind, h, ih]

theorem assocFind_assocErase {α : Type} (es : List (String × α)) (k : String) :
    assocFind (assocErase es k) k = none := by
  induction es with
  | nil => simp [assocErase, assocFind]
  | cons e rest ih =>
    by_cases h : e.1 = k
    · simpa [assocErase, h] using ih
    · simpa [assocErase, assocFind, h] using ih

theorem lookup_putPath_append (v : FSNode) (p : Path) :
    ∀ (t : FSNode) (q : Path), (t.putPath p v).lookup (p ++ q) = v.lookup q := by
  induction p with
  | nil => intro t q; rfl
  | cons k ks ih =>
    intro t q
    simp only [FSNode.putPath, List.cons_append, FSNode.lookup, assocFind_assocSet]
    exact ih _ q

theorem lookup_putPath_self (t v : FSNode) (p : Path) :
    (t.putPath p v).lookup p = some v := by
  have h := lookup_putPath_append v p t []
  simpa [FSNode.lookup] using h

theorem lookup_removePath_self (p : Path) (h : p ≠ []) :
    ∀ t : FSNode, (t.removePath p).lookup p = none := by
  induction p with
  | nil => exact absurd rfl h
  | cons k ks ih =>
    intro t
    cases ks with
    | nil =>
      simp [FSNode.removePath, FSNode.lookup, assocFind_assocErase]
    | cons k2 ks2 =>
      simp only [FSNode.removePath, FSNode.lookup, assocFind_assocSet]
      exact ih (by simp) _

theorem lookup_append (p : Path) :
    ∀ (t : FSNode) (q : Path),
      t.lookup (p ++ q) = (t.lookup p).bind (fun u => u.lookup q) := by
  induction p with
  | nil => intro t q; simp [FSNode.lookup]
  | cons k ks ih =>
    intro t q
    cases t with
    | file c => rfl
    | dir es =>
      simp only [List.cons_append, FSNode.lookup]
      cases assocFind es k with
      | none => rfl
      | some c => exact ih c q

/-- A corpus descriptor, as the dicts of the per-language registries:
name, location kind (the strings "remote" or "local") and resource-type tag.
The source accesses the keys name, location and type. -/
structure CorpusDescriptor where
  name : String
  location : String
  ctype : String
deriving Repr, DecidableEq

/-- Modelled from the spec: the per-language descriptor lists
(CHINESE_CORPORA and friends, in the per-language corpora modules, which are
not under src/) are opaque registry data; this structure abstracts their
contents, one field per language key of LANGUAGE_CORPORA. -/
structure CorporaData where
  chinese : List CorpusDescriptor
  coptic : List CorpusDescriptor
  greek : List CorpusDescriptor
  latin : List CorpusDescriptor
  multilingual : List CorpusDescriptor
  pali : List CorpusDescriptor
  tibetan : List CorpusDescriptor
  sanskrit : List CorpusDescriptor

/-- AVAILABLE_LANGUAGES, verbatim from the source. -/
def AVAILABLE_LANGUAGES : List String :=
  ["chinese", "coptic", "greek", "latin", "multilingual", "pali", "tibetan", "sanskrit"]

/-- LANGUAGE_CORPORA: the module-level dict, keys verbatim from the source,
values abstracted by `CorporaData`. -/
def LANGUAGE_CORPORA (d : CorporaData) : List (String × List CorpusDescriptor) :=
  [("chinese", d.chinese),
   ("coptic", d.coptic),
   ("greek", d.greek),
   ("latin", d.latin),
   ("multilingual", d.multilingual),
   ("pali", d.pali),
   ("tibetan", d.tibetan),
   ("sanskrit", d.sanskrit)]

/-- The errno values distinguished by the engine, plus the fallback cases. -/
inductive OSError where
  | ENOTDIR
  | ENOENT
  | EEXIST
  | EISDIR
  | otherOS
deriving Repr, DecidableEq

/-- The Python exception kinds the importer can raise.
corpusImportError is the module's own CorpusImportError class; gitError
stands for the errors the git library raises (GitCommandError,
InvalidGitRepositoryError, ...), which are not CorpusImportError subclasses;
keyError models a dict access miss; attributeError models calling a method
on None. -/
inductive PyError where
  | corpusImportError (msg : String)
  | keyError (key : String)
  | gitError (msg : String)
  | attributeError
  | osError (e : OSError)
deriving Repr, DecidableEq

/-- The observable actions of one import call, in order. -/
inductive Event where
  | log (msg : String)
  | makeDirs (p : Path)
  | clone (uri : String) (dir : Path) (depth : Nat)
  | pull (dir : Path)
  | rmTree (p : Path)
  | copyInto (dst : Path)
deriving Repr, DecidableEq

def Event.isClone : Event → Bool
  | Event.clone _ _ _ => true
  | _ => false

def Event.isPull : Event → Bool
  | Event.pull _ => true
  | _ => false

def Event.isLog : Event → Bool
  | Event.log _ => true
  | _ => false

def countClones (evs : List Event) : Nat := (evs.filter Event.isClone).length

def countPulls (evs : List Event) : Nat := (evs.filter Event.isPull).length

/-- A filesystem together with the trace of actions taken so far. -/
structure ImportState where
  fs : FSNode
  events : List Event

/-- Models Python str.lower by lowercasing every character (agrees with it
on the ASCII strings relevant here). -/
def pyLower (s : String) : String := String.mk (s.data.map Char.toLower)

/-- Models Python str.rstrip(chars): drop from the right every character
that occurs in chars. -/
def pyRstrip (s : String) (chars : String) : String :=
  String.mk ((s.data.reverse.dropWhile (fun c => chars.data.contains c)).reverse)

/-- os.pathsep, the PATH-list separator (POSIX value; on Windows it is a
semicolon - on neither platform is it the directory separator). -/
def os_pathsep : String := ":"

/-- The second component of os.path.split: the part after the last slash
(empty when the path ends in a slash). -/
def pathTail (s : String) : String :=
  String.mk ((s.data.reverse.takeWhile (fun c => !(c == '/'))).reverse)

/-- Models urllib.parse.urljoin for the only use in this module: the base
string ends in a slash and the reference is a plain repository name plus
".git" (no scheme, no slash, no colon), for which urljoin appends the
reference to the base. -/
def urljoin (base ref : String) : String := base ++ ref

/-- Modelled from the spec: the Path Resolver make_cltk_path (in
cltk.utils.file_operations, not under src/) maps its arguments to a path
under the root data directory (cltk_data). Paths are component lists under
that root. -/
def make_cltk_path (parts : List String) : Path := "cltk_data" :: parts

/-- Embeds CorpusImporter._setup_language_variables: raise CorpusImportError
when the (already lowercased) language is not available. -/
def setup_language_variables (language : String) : Except PyError Unit :=
  if language ∈ AVAILABLE_LANGUAGES then Except.ok ()
  else Except.error (PyError.corpusImportError
    ("Corpora not available for the " ++ language ++ " language."))

/-- Embeds CorpusImporter.__init__: lowercase the language, then validate it;
on success the instance stores the lowercased language (returned here). -/
def CorpusImporter_init (language : String) : Except PyError String :=
  match setup_language_variables (pyLower language) with
  | Except.ok _ => Except.ok (pyLower language)
  | Except.error e => Except.error e

/-- Embeds the list_corpora property: look the language up in
LANGUAGE_CORPORA and return the name field of every descriptor; a missing
key (KeyError, caught by the source's except clause together with the
impossible NameError) becomes a logged CorpusImportError. -/
def list_corpora (d : CorporaData) (language : String) :
    Except PyError (List String) :=
  match assocFind (LANGUAGE_CORPORA d) language with
  | some corpora => Except.ok (corpora.map (fun c => c.name))
  | none => Except.error (PyError.corpusImportError
      ("Corpus not available for language " ++ language))

/-- Embeds CorpusImporter._get_corpus_properties.  The source wraps the dict
access in try/except NameError only; a missing language key would raise an
uncaught KeyError (NameError cannot occur since LANGUAGE_CORPORA is a
module-level name), modelled by the keyError branch.  The scan returns the
first descriptor whose name equals corpus_name, else raises
CorpusImportError (logged by the source before raising). -/
def get_corpus_properties (d : CorporaData) (language corpus_name : String) :
    Except PyError CorpusDescriptor :=
  match assocFind (LANGUAGE_CORPORA d) language with
  | none => Except.error (PyError.keyError language)
  | some corpora =>
    match corpora.find? (fun c => c.name == corpus_name) with
    | some props => Except.ok props
    | none => Except.error (PyError.corpusImportError
        ("Corpus " ++ corpus_name ++ " not available for the " ++ language ++ " language."))

/-- The behaviour of the git collaborator during one import call: whether
clone and pull succeed, their failure messages, and the tree the remote
currently serves (a successful clone or fast-forwarding pull leaves that
tree at the target directory). -/
structure GitEnv where
  cloneOk : Bool
  cloneErr : String
  pullOk : Bool
  pullErr : String
  remoteTree : FSNode

/-- Mirrors the source's except CorpusImportError handler around one
remote-sync step: a raised corpusImportError is logged and swallowed, any
other raised exception passes through uncaught.  The bodies guarded by this
handler (Repo.clone_from, Repo(...) and origin.pull()) raise git errors,
never CorpusImportError, so the swallowing branch is dead code. -/
def exceptCorpusImportError (r : ImportState × Option PyError) (failLog : String) :
    ImportState × Option PyError :=
  match r with
  | (st, some (PyError.corpusImportError _)) =>
      (⟨st.fs, st.events ++ [Event.log failLog]⟩, none)
  | other => other

/-- Embeds the remote arm of CorpusImporter.import_corpus: compute the git
URI, the type directory, the target directory and the sentinel README.md
path; when the sentinel file is absent, create the type directory chain if
missing and attempt a depth-1 clone; when present, open the working copy
and pull from origin.  Each attempt is wrapped in the (dead) except
CorpusImportError handler. -/
def remoteSync (language corpus_name : String) (props : CorpusDescriptor)
    (env : GitEnv) (fs : FSNode) : ImportState × Option PyError :=
  let git_uri := urljoin "https://github.com/cltk/" (corpus_name ++ ".git")
  let type_dir := make_cltk_path [language, props.ctype]
  let target_dir := type_dir ++ [corpus_name]
  let target_file := target_dir ++ ["README.md"]
  if fs.isfile target_file = false then
    let st1 : ImportState :=
      if fs.isdir type_dir = false then
        ⟨fs.makedirs type_dir, [Event.makeDirs type_dir]⟩
      else ⟨fs, []⟩
    let attempt : ImportState × Option PyError :=
      if env.cloneOk = true then
        (⟨st1.fs.putPath target_dir env.remoteTree,
          st1.events ++ [Event.log ("Cloning " ++ corpus_name ++ " from " ++ git_uri),
                         Event.clone git_uri target_dir 1]⟩, none)
      else
        (⟨st1.fs,
          st1.events ++ [Event.log ("Cloning " ++ corpus_name ++ " from " ++ git_uri),
                         Event.clone git_uri target_dir 1]⟩,
         some (PyError.gitError env.cloneErr))
    exceptCorpusImportError attempt ("Git clone of " ++ git_uri ++ " failed")
  else
    let attempt : ImportState × Option PyError :=
      if env.pullOk = true then
        (⟨fs.putPath target_dir env.remoteTree,
          [Event.log ("Pulling latest " ++ corpus_name ++ " from " ++ git_uri),
           Event.pull target_dir]⟩, none)
      else
        (⟨fs, [Event.log ("Pulling latest " ++ corpus_name ++ " from " ++ git_uri),
               Event.pull target_dir]⟩,
         some (PyError.gitError env.pullErr))
    exceptCorpusImportError attempt ("Git pull of " ++ git_uri ++ " failed")

/-- Embeds shutil.copytree(local_path, dst) with the source content at
local_path given as localTree (none: the path does not exist).  copytree
scans the source first: a missing source raises ENOENT and a regular-file
source raises ENOTDIR, both before the destination is created; an existing
destination then raises EEXIST. -/
def shutil_copytree (localTree : Option FSNode) (fs : FSNode) (dst : Path) :
    Except OSError FSNode :=
  match localTree with
  | none => Except.error OSError.ENOENT
  | some (FSNode.file _) => Except.error OSError.ENOTDIR
  | some (FSNode.dir es) =>
    if (fs.lookup dst).isSome = true then Except.error OSError.EEXIST
    else Except.ok (fs.putPath dst (FSNode.dir es))

/-- Embeds shutil.copy(local_path, dst) for the reachable cases: the source
is a regular file and the destination is not an existing directory (copying
into an existing directory, which targets dst/basename, is unreachable from
the importer, whose fallback only runs when the destination is absent). -/
def shutil_copy (localTree : Option FSNode) (fs : FSNode) (dst : Path) :
    Except OSError FSNode :=
  match localTree with
  | none => Except.error OSError.ENOENT
  | some (FSNode.dir _) => Except.error OSError.EISDIR
  | some (FSNode.file c) =>
    match fs.lookup dst with
    | some (FSNode.dir _) => Except.error OSError.EISDIR
    | _ => Except.ok (fs.putPath dst (FSNode.file c))

/-- Embeds CorpusImporter._copy_dir_recursive: try copytree; on an OSError
with errno ENOTDIR fall back to a single-file copy; re-raise anything
else. -/
def copy_dir_recursive (localTree : Option FSNode) (fs : FSNode) (dst : Path) :
    Except OSError FSNode :=
  match shutil_copytree localTree fs dst with
  | Except.ok fs2 => Except.ok fs2
  | Except.error e =>
    if e = OSError.ENOTDIR then shutil_copy localTree fs dst
    else Except.error e

/-- The tuple of legacy local corpus names, verbatim from the source. -/
def legacyCorpora : List String := ["phi5", "phi7", "tlg"]

/-- Embeds the local arm of CorpusImporter.import_corpus.  For the legacy
names the source first calls local_path.rstrip(os.pathsep), which raises
AttributeError when local_path is None; then it logs a warning when the
path tail does not match the expected folder name; ensures the originals
directory exists; removes the existing originals subdirectory named after
the corpus when present; and copies
local_path there via _copy_dir_recursive.  Any other corpus name is logged
and otherwise a no-op.  (Log texts are modelled without the source's
quoting.) -/
def localImport (corpus_name : String) (local_path : Option String)
    (localTree : Option FSNode) (fs : FSNode) : ImportState × Option PyError :=
  let ev0 := [Event.log ("Importing from local path: " ++
      (match local_path with | some s => s | none => "None"))]
  if legacyCorpora.contains corpus_name = true then
    match local_path with
    | none => (⟨fs, ev0⟩, some PyError.attributeError)
    | some lp0 =>
      let lp := pyRstrip lp0 os_pathsep
      let evChecks :=
        (if corpus_name = "phi5" ∧ pathTail lp ≠ "PHI5" then
          [Event.log "Directory must be named PHI5."] else []) ++
        (if corpus_name = "phi7" ∧ pathTail lp ≠ "PHI7" then
          [Event.log "Directory must be named PHI7."] else []) ++
        (if corpus_name = "tlg" ∧ pathTail lp ≠ "TLG_E" then
          [Event.log "Directory must be named TLG_E."] else [])
      let originals_dir := make_cltk_path ["originals"]
      let st1 : ImportState :=
        if fs.isdir originals_dir = false then
          ⟨fs.makedirs originals_dir,
           [Event.makeDirs originals_dir, Event.log "Wrote originals directory."]⟩
        else ⟨fs, []⟩
      let tlg_originals_dir := make_cltk_path ["originals", corpus_name]
      let st2 : ImportState :=
        if st1.fs.isdir tlg_originals_dir = true then
          ⟨st1.fs.removePath tlg_originals_dir,
           [Event.rmTree tlg_originals_dir, Event.log "Removed originals subdirectory."]⟩
        else ⟨st1.fs, []⟩
      let evs := ev0 ++ evChecks ++ st1.events ++ st2.events
      if st2.fs.isdir tlg_originals_dir = false then
        match copy_dir_recursive localTree st2.fs tlg_originals_dir with
        | Except.ok fs3 => (⟨fs3, evs ++ [Event.copyInto tlg_originals_dir]⟩, none)
        | Except.error e =>
            (⟨st2.fs, evs ++ [Event.copyInto tlg_originals_dir]⟩,
             some (PyError.osError e))
      else (⟨st2.fs, evs⟩, none)
  else (⟨fs, ev0⟩, none)

/-- Embeds CorpusImporter.import_corpus: resolve the descriptor (raising
CorpusImportError, already logged, when the name is unknown), then dispatch
on its location field; a location that is neither remote nor local falls
off the elif chain and does nothing. -/
def import_corpus (d : CorporaData) (language corpus_name : String)
    (local_path : Option String) (localTree : Option FSNode)
    (env : GitEnv) (fs : FSNode) : ImportState × Option PyError :=
  match get_corpus_properties d language corpus_name with
  | Except.error e =>
      (⟨fs, match e with
            | PyError.corpusImportError m => [Event.log m]
            | _ => []⟩, some e)
  | Except.ok props =>
    if props.location = "remote" then
      remoteSync language corpus_name props env fs
    else if props.location = "local" then
      localImport corpus_name local_path localTree fs
    else
      (⟨fs, []⟩, none)

/-! Sample registry data and environments used by concrete witnesses. -/

/-- A sample remote descriptor for witness instantiations. -/
def sampleRemote : CorpusDescriptor := ⟨"c1", "remote", "text"⟩

/-- Modelled from the spec: the legacy corpora (phi5, phi7, tlg) are
LOCAL-location descriptors of the registry (registry contents are not under
src/; the spec glossary calls a legacy corpus one of a small fixed set of
local-only corpora). -/
def samplePhi5 : CorpusDescriptor := ⟨"phi5", "local", "text"⟩

/-- A sample non-legacy LOCAL descriptor. -/
def sampleLocalOther : CorpusDescriptor := ⟨"other_local", "local", "text"⟩

/-- A sample registry: one remote greek corpus, a legacy and a non-legacy
local latin corpus. -/
def d0 : CorporaData :=
  ⟨[], [], [sampleRemote], [samplePhi5, sampleLocalOther], [], [], [], []⟩

/-- Two descriptors sharing one name, to exercise first-match lookup. -/
def dupA : CorpusDescriptor := ⟨"dup", "remote", "text"⟩

/-- Second descriptor with the duplicated name. -/
def dupB : CorpusDescriptor := ⟨"dup", "local", "treebank"⟩

/-- A registry whose greek list contains a duplicated corpus name. -/
def dDup : CorporaData :=
  ⟨[], [], [⟨"x", "remote", "t"⟩, dupA, dupB], [], [], [], [], []⟩

/-- A git environment where both clone and pull succeed and the remote tree
carries the sentinel README.md. -/
def env0 : GitEnv :=
  ⟨true, "", true, "", FSNode.dir [("README.md", FSNode.file "readme")]⟩

/-- A git environment whose clone fails. -/
def envCloneFail : GitEnv :=
  ⟨false, "network down", true, "", FSNode.dir [("README.md", FSNode.file "readme")]⟩

/-- A git environment whose pull fails. -/
def envPullFail : GitEnv :=
  ⟨true, "", false, "network down", FSNode.dir [("README.md", FSNode.file "readme")]⟩

/-- A data tree already holding the cloned greek corpus with its sentinel. -/
def fsWithSentinel : FSNode :=
  FSNode.dir [("cltk_data", FSNode.dir [("greek", FSNode.dir [("text",
    FSNode.dir [("c1", FSNode.dir [("README.md", FSNode.file "readme")])])])])]

/-- A data tree whose originals subdirectory for phi5 holds a stale file. -/
def fsStale : FSNode :=
  FSNode.dir [("cltk_data", FSNode.dir [("originals", FSNode.dir
    [("phi5", FSNode.dir [("stale.txt", FSNode.file "old")])])])]

/-! Helper characterizations of the filesystem predicates. -/

theorem isdir_iff (t : FSNode) (p : Path) :
    t.isdir p = true ↔ ∃ es, t.lookup p = some (FSNode.dir es) := by
  unfold FSNode.isdir
  cases h : t.lookup p with
  | none => simp
  | some u =>
    cases u with
    | file c => simp
    | dir es => simp

theorem isdir_parent (t : FSNode) (p : Path) (k : String)
    (h : t.isdir (p ++ [k]) = true) : t.isdir p = true := by
  rw [isdir_iff] at h ⊢
  obtain ⟨es, hes⟩ := h
  rw [lookup_append] at hes
  cases hp : t.lookup p with
  | none => rw [hp] at hes; simp at hes
  | some u =>
    rw [hp] at hes
    cases u with
    | file c => simp [FSNode.lookup] at hes
    | dir es2 => exact ⟨es2, rfl⟩

theorem isfile_putPath_append (t v : FSNode) (p q : Path) :
    (t.putPath p v).isfile (p ++ q) = v.isfile q := by
  unfold FSNode.isfile
  rw [lookup_putPath_append]

/-! The claim theorems. -/

/-- C8: constructing an importer lowercases the language first and then
validates it: construction succeeds (storing the lowercased language)
exactly when the lowercased language is in AVAILABLE_LANGUAGES, fails with
a CorpusImportError otherwise, and two constructions from strings with the
same lowercasing behave identically. -/
theorem init_lowercases_and_validates (language : String) :
    (pyLower language ∈ AVAILABLE_LANGUAGES →
        CorpusImporter_init language = Except.ok (pyLower language)) ∧
    ((∃ e, CorpusImporter_init language = Except.error e) ↔
        pyLower language ∉ AVAILABLE_LANGUAGES) ∧
    (∀ language2 : String, pyLower language = pyLower language2 →
        CorpusImporter_init language = CorpusImporter_init language2) := by
  refine ⟨?_, ⟨?_, ?_⟩, ?_⟩
  · intro h
    simp [CorpusImporter_init, setup_language_variables, h]
  · rintro ⟨e, he⟩ hmem
    simp [CorpusImporter_init, setup_language_variables, hmem] at he
  · intro hmem
    exact ⟨PyError.corpusImportError
        ("Corpora not available for the " ++ pyLower language ++ " language."),
      by simp [CorpusImporter_init, setup_language_variables, hmem]⟩
  · intro language2 h
    simp [CorpusImporter_init, h]

/-- C8 witness: LATIN and latin construct identically, and latin succeeds. -/
theorem init_lowercases_and_validates_witness :
    CorpusImporter_init "LATIN" = CorpusImporter_init "latin" ∧
    CorpusImporter_init "latin" = Except.ok (pyLower "latin") :=
  ⟨(init_lowercases_and_validates "LATIN").2.2 "latin" (by decide),
   (init_lowercases_and_validates "latin").1 (by decide)⟩

/-- C10: for every language in AVAILABLE_LANGUAGES (every language a
successfully constructed importer can store), the LANGUAGE_CORPORA lookup
succeeds, so list_corpora never reaches its defensive error branch and
returns the name fields of the descriptors of that language. -/
theorem list_corpora_never_raises (d : CorporaData) (language : String)
    (h : language ∈ AVAILABLE_LANGUAGES) :
    ∃ corpora, assocFind (LANGUAGE_CORPORA d) language = some corpora ∧
      list_corpora d language = Except.ok (corpora.map (fun c => c.name)) := by
  simp only [AVAILABLE_LANGUAGES, List.mem_cons, List.not_mem_nil, or_false] at h
  rcases h with h | h | h | h | h | h | h | h <;> subst h <;>
    exact ⟨_, rfl, rfl⟩

/-- C10 witness: the greek lookup of a sample registry. -/
theorem list_corpora_never_raises_witness :
    ∃ corpora, assocFind (LANGUAGE_CORPORA d0) "greek" = some corpora ∧
      list_corpora d0 "greek" = Except.ok (corpora.map (fun c => c.name)) :=
  list_corpora_never_raises d0 "greek" (by decide)

/-- C9: when the local path holds a regular file, _copy_dir_recursive falls
back to the single-file copy (copytree raises ENOTDIR, which is the one
errno the handler retries as shutil.copy); every other copytree error is
re-raised unchanged, and such an error propagates out of import_corpus
uncaught (shown at a missing source path, which raises ENOENT). -/
theorem copy_file_fallback_and_reraise (localTree : Option FSNode)
    (fs : FSNode) (dst : Path) :
    (∀ content, localTree = some (FSNode.file content) →
        copy_dir_recursive localTree fs dst = shutil_copy localTree fs dst) ∧
    (∀ e, shutil_copytree localTree fs dst = Except.error e →
        e ≠ OSError.ENOTDIR →
        copy_dir_recursive localTree fs dst = Except.error e) ∧
    (import_corpus d0 "latin" "phi5" (some "/src/missing") none env0 (FSNode.dir [])).2
      = some (PyError.osError OSError.ENOENT) := by
  refine ⟨?_, ?_, by decide⟩
  · rintro content rfl
    simp [copy_dir_recursive, shutil_copytree]
  · intro e he hne
    simp [copy_dir_recursive, he, hne]

/-- C9 witness: a single-file source is copied as a file, and a missing
source re-raises ENOENT. -/
theorem copy_file_fallback_and_reraise_witness :
    copy_dir_recursive (some (FSNode.file "x")) (FSNode.dir []) ["d"]
      = shutil_copy (some (FSNode.file "x")) (FSNode.dir []) ["d"] ∧
    copy_dir_recursive none (FSNode.dir []) ["d"]
      = Except.error OSError.ENOENT :=
  ⟨(copy_file_fallback_and_reraise (some (FSNode.file "x"))
      (FSNode.dir []) ["d"]).1 "x" rfl,
   (copy_file_fallback_and_reraise none (FSNode.dir []) ["d"]).2.1
      OSError.ENOENT rfl (by decide)⟩

/-- First-match scan of a descriptor list: the first descriptor bearing the
searched name is returned even when later duplicates exist. -/
theorem find_first_match (corpus_name : String) (l1 : List CorpusDescriptor)
    (props : CorpusDescriptor) (l2 : List CorpusDescriptor)
    (hname : props.name = corpus_name)
    (hl1 : ∀ c ∈ l1, c.name ≠ corpus_name) :
    (l1 ++ props :: l2).find? (fun c => c.name == corpus_name) = some props := by
  induction l1 with
  | nil =>
    rw [List.nil_append, List.find?_cons_of_pos]
    simp [hname]
  | cons c rest ih =>
    rw [List.cons_append, List.find?_cons_of_neg]
    · exact ih (fun x hx => hl1 x (by simp [hx]))
    · simp [hl1 c (by simp)]

/-- C3: when no descriptor of the language bears the requested name,
import_corpus raises a CorpusImportError having changed nothing (the
filesystem is untouched and every event is a log line, no filesystem or
network action); and when descriptors with the name exist, resolution
returns the first one in the list. -/
theorem unknown_corpus_fails_before_effects_and_first_match_wins
    (d : CorporaData) (language corpus_name : String)
    (corpora : List CorpusDescriptor)
    (hreg : assocFind (LANGUAGE_CORPORA d) language = some corpora) :
    (corpora.find? (fun c => c.name == corpus_name) = none →
      ∀ (local_path : Option String) (localTree : Option FSNode)
        (env : GitEnv) (fs : FSNode),
        (import_corpus d language corpus_name local_path localTree env fs).1.fs = fs ∧
        (∃ m, (import_corpus d language corpus_name local_path localTree env fs).2
            = some (PyError.corpusImportError m)) ∧
        (∀ e ∈ (import_corpus d language corpus_name local_path localTree env fs).1.events,
            e.isLog = true)) ∧
    (∀ (l1 : List CorpusDescriptor) (props : CorpusDescriptor)
        (l2 : List CorpusDescriptor),
        corpora = l1 ++ props :: l2 → props.name = corpus_name →
        (∀ c ∈ l1, c.name ≠ corpus_name) →
        get_corpus_properties d language corpus_name = Except.ok props) := by
  constructor
  · intro hfind local_path localTree env fs
    have hred : import_corpus d language corpus_name local_path localTree env fs
        = (⟨fs, [Event.log ("Corpus " ++ corpus_name ++ " not available for the "
              ++ language ++ " language.")]⟩,
           some (PyError.corpusImportError ("Corpus " ++ corpus_name ++
              " not available for the " ++ language ++ " language."))) := by
      simp [import_corpus, get_corpus_properties, hreg, hfind]
    rw [hred]
    refine ⟨rfl, ⟨_, rfl⟩, ?_⟩
    intro e he
    rw [List.mem_singleton] at he
    subst he
    rfl
  · intro l1 props l2 hcorp hname hl1
    subst hcorp
    simp [get_corpus_properties, hreg, find_first_match corpus_name l1 props l2 hname hl1]

/-- C3 witness: an unknown latin corpus leaves the filesystem untouched, and
a duplicated greek name resolves to the first descriptor. -/
theorem unknown_corpus_witness :
    (import_corpus d0 "latin" "nope" none none env0 (FSNode.dir [])).1.fs
      = FSNode.dir [] ∧
    get_corpus_properties dDup "greek" "dup" = Except.ok dupA :=
  ⟨((unknown_corpus_fails_before_effects_and_first_match_wins d0 "latin" "nope"
      [samplePhi5, sampleLocalOther] rfl).1 rfl none none env0 (FSNode.dir [])).1,
   (unknown_corpus_fails_before_effects_and_first_match_wins dDup "greek" "dup"
      [⟨"x", "remote", "t"⟩, dupA, dupB] rfl).2 [⟨"x", "remote", "t"⟩] dupA [dupB]
      rfl rfl (by decide)⟩

/-- C5 counterexample: for the LOCAL legacy corpus phi5, import_corpus with
local_path omitted does not return normally: local_path.rstrip(os.pathsep)
is called on None and raises an AttributeError. -/
theorem local_path_none_raises_counterexample :
    ¬ (import_corpus d0 "latin" "phi5" none none env0 (FSNode.dir [])).2 = none := by
  decide

/-- C5 amended: for every non-legacy LOCAL corpus (name outside phi5, phi7,
tlg), import_corpus with local_path omitted returns normally and is a no-op
apart from a log line; for the legacy names, omitting local_path raises an
AttributeError instead. -/
theorem local_path_none_behavior (d : CorporaData) (language corpus_name : String)
    (corpora : List CorpusDescriptor) (props : CorpusDescriptor)
    (localTree : Option FSNode) (env : GitEnv) (fs : FSNode)
    (hreg : assocFind (LANGUAGE_CORPORA d) language = some corpora)
    (hfind : corpora.find? (fun c => c.name == corpus_name) = some props)
    (hloc : props.location = "local") :
    (corpus_name ∉ legacyCorpora →
        import_corpus d language corpus_name none localTree env fs
          = (⟨fs, [Event.log "Importing from local path: None"]⟩, none)) ∧
    (corpus_name ∈ legacyCorpora →
        (import_corpus d language corpus_name none localTree env fs).2
          = some PyError.attributeError) := by
  constructor <;> intro h <;>
    simp [import_corpus, get_corpus_properties, hreg, hfind, hloc, localImport, h]

/-- C5 amended witness: the non-legacy local corpus other_local imports as a
logged no-op when local_path is omitted. -/
theorem local_path_none_behavior_witness :
    import_corpus d0 "latin" "other_local" none none env0 (FSNode.dir [])
      = (⟨FSNode.dir [], [Event.log "Importing from local path: None"]⟩, none) :=
  (local_path_none_behavior d0 "latin" "other_local" [samplePhi5, sampleLocalOther]
    sampleLocalOther none env0 (FSNode.dir []) rfl rfl rfl).1 (by decide)

/-- C1 (code bug): a failing clone of an absent remote corpus, and a failing
pull of a present one, both raise to the caller: the except clause names
CorpusImportError while the sync calls raise git errors, so the error is
not caught and import_corpus does not return normally. -/
theorem remote_failure_propagates :
    (import_corpus d0 "greek" "c1" none none envCloneFail (FSNode.dir [])).2
      = some (PyError.gitError "network down") ∧
    (import_corpus d0 "greek" "c1" none none envPullFail fsWithSentinel).2
      = some (PyError.gitError "network down") := by
  exact ⟨rfl, rfl⟩

/-- C6 (code bug): the source strips os.pathsep (the PATH-list separator,
a colon) rather than the directory separator, so a trailing slash on
local_path survives, the path tail seen by the directory-name validation is
empty, and a spurious naming warning is logged that the same path without
the trailing slash does not produce. -/
theorem rstrip_wrong_separator :
    pyRstrip "/data/PHI5/" os_pathsep = "/data/PHI5/" ∧
    Event.log "Directory must be named PHI5." ∈
      (import_corpus d0 "latin" "phi5" (some "/data/PHI5/") (some (FSNode.dir []))
        env0 (FSNode.dir [])).1.events ∧
    Event.log "Directory must be named PHI5." ∉
      (import_corpus d0 "latin" "phi5" (some "/data/PHI5") (some (FSNode.dir []))
        env0 (FSNode.dir [])).1.events := by
  refine ⟨rfl, by decide, by decide⟩

/-- C2: for a REMOTE corpus the engine decides solely by the presence of the
sentinel file: when README.md is absent under the target directory, exactly
one clone and no pull is attempted, with a URI joining the fixed base host
with corpus_name plus ".git", depth 1, into the resolved target directory,
creating the type directory chain when missing; when the sentinel is
present, exactly one pull and no clone of the existing working copy. -/
theorem remote_clone_or_pull_by_sentinel
    (d : CorporaData) (language corpus_name : String)
    (corpora : List CorpusDescriptor) (props : CorpusDescriptor)
    (local_path : Option String) (localTree : Option FSNode)
    (env : GitEnv) (fs : FSNode)
    (hreg : assocFind (LANGUAGE_CORPORA d) language = some corpora)
    (hfind : corpora.find? (fun c => c.name == corpus_name) = some props)
    (hloc : props.location = "remote") :
    (fs.isfile (make_cltk_path [language, props.ctype] ++ [corpus_name] ++ ["README.md"]) = false →
      countClones (import_corpus d language corpus_name local_path localTree env fs).1.events = 1 ∧
      countPulls (import_corpus d language corpus_name local_path localTree env fs).1.events = 0 ∧
      Event.clone (urljoin "https://github.com/cltk/" (corpus_name ++ ".git"))
          (make_cltk_path [language, props.ctype] ++ [corpus_name]) 1
        ∈ (import_corpus d language corpus_name local_path localTree env fs).1.events ∧
      (fs.isdir (make_cltk_path [language, props.ctype]) = false →
        Event.makeDirs (make_cltk_path [language, props.ctype])
          ∈ (import_corpus d language corpus_name local_path localTree env fs).1.events)) ∧
    (fs.isfile (make_cltk_path [language, props.ctype] ++ [corpus_name] ++ ["README.md"]) = true →
      countClones (import_corpus d language corpus_name local_path localTree env fs).1.events = 0 ∧
      countPulls (import_corpus d language corpus_name local_path localTree env fs).1.events = 1 ∧
      Event.pull (make_cltk_path [language, props.ctype] ++ [corpus_name])
        ∈ (import_corpus d language corpus_name local_path localTree env fs).1.events) := by
  have hi : import_corpus d language corpus_name local_path localTree env fs
      = remoteSync language corpus_name props env fs := by
    simp [import_corpus, get_corpus_properties, hreg, hfind, hloc]
  rw [hi]
  constructor
  · intro habs
    simp only [List.append_assoc, List.cons_append, List.nil_append] at habs
    by_cases hd : fs.isdir (make_cltk_path [language, props.ctype]) = false <;>
      by_cases hc : env.cloneOk = true <;>
        simp [remoteSync, habs, hd, hc, exceptCorpusImportError, countClones,
              countPulls, Event.isClone, Event.isPull]
  · intro hpres
    simp only [List.append_assoc, List.cons_append, List.nil_append] at hpres
    by_cases hp : env.pullOk = true <;>
      simp [remoteSync, hpres, hp, exceptCorpusImportError, countClones,
            countPulls, Event.isClone, Event.isPull]

/-- C2 witness: importing the sample greek remote corpus into an empty data
directory performs one clone with the joined URI and creates the type
directory. -/
theorem remote_clone_or_pull_by_sentinel_witness :
    countClones (import_corpus d0 "greek" "c1" none none env0 (FSNode.dir [])).1.events = 1 ∧
    Event.clone (urljoin "https://github.com/cltk/" ("c1" ++ ".git"))
        (make_cltk_path ["greek", "text"] ++ ["c1"]) 1
      ∈ (import_corpus d0 "greek" "c1" none none env0 (FSNode.dir [])).1.events ∧
    Event.makeDirs (make_cltk_path ["greek", "text"])
      ∈ (import_corpus d0 "greek" "c1" none none env0 (FSNode.dir [])).1.events :=
  ⟨((remote_clone_or_pull_by_sentinel d0 "greek" "c1" [sampleRemote] sampleRemote
      none none env0 (FSNode.dir []) rfl rfl rfl).1 (by decide)).1,
   ((remote_clone_or_pull_by_sentinel d0 "greek" "c1" [sampleRemote] sampleRemote
      none none env0 (FSNode.dir []) rfl rfl rfl).1 (by decide)).2.2.1,
   ((remote_clone_or_pull_by_sentinel d0 "greek" "c1" [sampleRemote] sampleRemote
      none none env0 (FSNode.dir []) rfl rfl rfl).1 (by decide)).2.2.2 (by decide)⟩

/-- C4: importing a legacy LOCAL corpus whose originals staging subdirectory
already exists removes that subdirectory recursively before copying, so
afterwards the destination holds exactly the contents of the new source
path, no stale entries surviving, and the call returns normally. -/
theorem legacy_local_destructive_overwrite
    (d : CorporaData) (language corpus_name lp : String)
    (es : List (String × FSNode))
    (corpora : List CorpusDescriptor) (props : CorpusDescriptor)
    (env : GitEnv) (fs : FSNode)
    (hreg : assocFind (LANGUAGE_CORPORA d) language = some corpora)
    (hfind : corpora.find? (fun c => c.name == corpus_name) = some props)
    (hloc : props.location = "local")
    (hleg : corpus_name ∈ legacyCorpora)
    (hdst : fs.isdir (make_cltk_path ["originals", corpus_name]) = true) :
    (import_corpus d language corpus_name (some lp) (some (FSNode.dir es)) env fs).1.fs.lookup
        (make_cltk_path ["originals", corpus_name]) = some (FSNode.dir es) ∧
    Event.rmTree (make_cltk_path ["originals", corpus_name]) ∈
        (import_corpus d language corpus_name (some lp) (some (FSNode.dir es)) env fs).1.events ∧
    (import_corpus d language corpus_name (some lp) (some (FSNode.dir es)) env fs).2 = none := by
  have horig : fs.isdir (make_cltk_path ["originals"]) = true :=
    isdir_parent fs (make_cltk_path ["originals"]) corpus_name hdst
  have hne : make_cltk_path ["originals", corpus_name] ≠ ([] : Path) := by
    simp [make_cltk_path]
  have hrm : (fs.removePath (make_cltk_path ["originals", corpus_name])).lookup
      (make_cltk_path ["originals", corpus_name]) = none :=
    lookup_removePath_self _ hne fs
  have hrmdir : (fs.removePath (make_cltk_path ["originals", corpus_name])).isdir
      (make_cltk_path ["originals", corpus_name]) = false := by
    unfold FSNode.isdir
    rw [hrm]
  simp [import_corpus, get_corpus_properties, hreg, hfind, hloc, localImport,
        hleg, horig, hdst, hrmdir, hrm, copy_dir_recursive, shutil_copytree,
        lookup_putPath_self]

/-- C4 witness: importing phi5 over a stale originals tree replaces it with
exactly the new source contents. -/
theorem legacy_local_destructive_overwrite_witness :
    (import_corpus d0 "latin" "phi5" (some "/data/PHI5")
        (some (FSNode.dir [("new.txt", FSNode.file "new")])) env0 fsStale).1.fs.lookup
        (make_cltk_path ["originals", "phi5"])
      = some (FSNode.dir [("new.txt", FSNode.file "new")]) ∧
    (import_corpus d0 "latin" "phi5" (some "/data/PHI5")
        (some (FSNode.dir [("new.txt", FSNode.file "new")])) env0 fsStale).2 = none :=
  ⟨(legacy_local_destructive_overwrite d0 "latin" "phi5" "/data/PHI5"
      [("new.txt", FSNode.file "new")] [samplePhi5, sampleLocalOther] samplePhi5
      env0 fsStale rfl rfl rfl (by decide) (by decide)).1,
   (legacy_local_destructive_overwrite d0 "latin" "phi5" "/data/PHI5"
      [("new.txt", FSNode.file "new")] [samplePhi5, sampleLocalOther] samplePhi5
      env0 fsStale rfl rfl rfl (by decide) (by decide)).2.2⟩

/-- C7: starting from an absent remote corpus with a healthy remote, two
successive imports perform exactly one clone (first call, no pull) and one
pull (second call, no clone), both calls return normally, and the sentinel
file exists after each call. -/
theorem import_twice_one_clone_then_one_pull
    (d : CorporaData) (language corpus_name : String)
    (corpora : List CorpusDescriptor) (props : CorpusDescriptor)
    (env : GitEnv) (fs : FSNode)
    (hreg : assocFind (LANGUAGE_CORPORA d) language = some corpora)
    (hfind : corpora.find? (fun c => c.name == corpus_name) = some props)
    (hloc : props.location = "remote")
    (hclone : env.cloneOk = true) (hpull : env.pullOk = true)
    (hsent : env.remoteTree.isfile ["README.md"] = true)
    (habsent : fs.isfile (make_cltk_path [language, props.ctype] ++ [corpus_name]
        ++ ["README.md"]) = false) :
    countClones (import_corpus d language corpus_name none none env fs).1.events = 1 ∧
    countPulls (import_corpus d language corpus_name none none env fs).1.events = 0 ∧
    (import_corpus d language corpus_name none none env fs).2 = none ∧
    (import_corpus d language corpus_name none none env fs).1.fs.isfile
        (make_cltk_path [language, props.ctype] ++ [corpus_name] ++ ["README.md"]) = true ∧
    countClones (import_corpus d language corpus_name none none env
        (import_corpus d language corpus_name none none env fs).1.fs).1.events = 0 ∧
    countPulls (import_corpus d language corpus_name none none env
        (import_corpus d language corpus_name none none env fs).1.fs).1.events = 1 ∧
    (import_corpus d language corpus_name none none env
        (import_corpus d language corpus_name none none env fs).1.fs).2 = none ∧
    (import_corpus d language corpus_name none none env
        (import_corpus d language corpus_name none none env fs).1.fs).1.fs.isfile
        (make_cltk_path [language, props.ctype] ++ [corpus_name] ++ ["README.md"]) = true := by
  have hi : ∀ g : FSNode, import_corpus d language corpus_name none none env g
      = remoteSync language corpus_name props env g := by
    intro g
    simp [import_corpus, get_corpus_properties, hreg, hfind, hloc]
  simp only [List.append_assoc, List.cons_append, List.nil_append] at habsent
  by_cases hd : fs.isdir (make_cltk_path [language, props.ctype]) = false
  · have h1 : import_corpus d language corpus_name none none env fs
        = (⟨(fs.makedirs (make_cltk_path [language, props.ctype])).putPath
              (make_cltk_path [language, props.ctype] ++ [corpus_name]) env.remoteTree,
            [Event.makeDirs (make_cltk_path [language, props.ctype]),
             Event.log ("Cloning " ++ corpus_name ++ " from "
               ++ urljoin "https://github.com/cltk/" (corpus_name ++ ".git")),
             Event.clone (urljoin "https://github.com/cltk/" (corpus_name ++ ".git"))
               (make_cltk_path [language, props.ctype] ++ [corpus_name]) 1]⟩, none) := by
      rw [hi]
      simp [remoteSync, habsent, hd, hclone, exceptCorpusImportError]
    have hs1 : ((fs.makedirs (make_cltk_path [language, props.ctype])).putPath
        (make_cltk_path [language, props.ctype] ++ [corpus_name]) env.remoteTree).isfile
        ((make_cltk_path [language, props.ctype] ++ [corpus_name]) ++ ["README.md"]) = true := by
      rw [isfile_putPath_append]
      exact hsent
    have hs1n := hs1
    simp only [List.append_assoc, List.cons_append, List.nil_append] at hs1n
    have h2 : import_corpus d language corpus_name none none env
        ((fs.makedirs (make_cltk_path [language, props.ctype])).putPath
          (make_cltk_path [language, props.ctype] ++ [corpus_name]) env.remoteTree)
        = (⟨((fs.makedirs (make_cltk_path [language, props.ctype])).putPath
              (make_cltk_path [language, props.ctype] ++ [corpus_name]) env.remoteTree).putPath
              (make_cltk_path [language, props.ctype] ++ [corpus_name]) env.remoteTree,
            [Event.log ("Pulling latest " ++ corpus_name ++ " from "
               ++ urljoin "https://github.com/cltk/" (corpus_name ++ ".git")),
             Event.pull (make_cltk_path [language, props.ctype] ++ [corpus_name])]⟩, none) := by
      rw [hi]
      simp [remoteSync, hs1n, hpull, exceptCorpusImportError]
    have hs2 : (((fs.makedirs (make_cltk_path [language, props.ctype])).putPath
        (make_cltk_path [language, props.ctype] ++ [corpus_name]) env.remoteTree).putPath
        (make_cltk_path [language, props.ctype] ++ [corpus_name]) env.remoteTree).isfile
        ((make_cltk_path [language, props.ctype] ++ [corpus_name]) ++ ["README.md"]) = true := by
      rw [isfile_putPath_append]
      exact hsent
    have hs2n := hs2
    simp only [List.append_assoc, List.cons_append, List.nil_append] at hs2n
    simp [h1, h2, countClones, countPulls, Event.isClone, Event.isPull, hs1n, hs2n]
  · have h1 : import_corpus d language corpus_name none none env fs
        = (⟨fs.putPath
              (make_cltk_path [language, props.ctype] ++ [corpus_name]) env.remoteTree,
            [Event.log ("Cloning " ++ corpus_name ++ " from "
               ++ urljoin "https://github.com/cltk/" (corpus_name ++ ".git")),
             Event.clone (urljoin "https://github.com/cltk/" (corpus_name ++ ".git"))
               (make_cltk_path [language, props.ctype] ++ [corpus_name]) 1]⟩, none) := by
      rw [hi]
      simp [remoteSync, habsent, hd, hclone, exceptCorpusImportError]
    have hs1 : (fs.putPath
        (make_cltk_path [language, props.ctype] ++ [corpus_name]) env.remoteTree).isfile
        ((make_cltk_path [language, props.ctype] ++ [corpus_name]) ++ ["README.md"]) = true := by
      rw [isfile_putPath_append]
      exact hsent
    have hs1n := hs1
    simp only [List.append_assoc, List.cons_append, List.nil_append] at hs1n
    have h2 : import_corpus d language corpus_name none none env
        (fs.putPath
          (make_cltk_path [language, props.ctype] ++ [corpus_name]) env.remoteTree)
        = (⟨(fs.putPath
              (make_cltk_path [language, props.ctype] ++ [corpus_name]) env.remoteTree).putPath
              (make_cltk_path [language, props.ctype] ++ [corpus_name]) env.remoteTree,
            [Event.log ("Pulling latest " ++ corpus_name ++ " from "
               ++ urljoin "https://github.com/cltk/" (corpus_name ++ ".git")),
             Event.pull (make_cltk_path [language, props.ctype] ++ [corpus_name])]⟩, none) := by
      rw [hi]
      simp [remoteSync, hs1n, hpull, exceptCorpusImportError]
    have hs2 : ((fs.putPath
        (make_cltk_path [language, props.ctype] ++ [corpus_name]) env.remoteTree).putPath
        (make_cltk_path [language, props.ctype] ++ [corpus_name]) env.remoteTree).isfile
        ((make_cltk_path [language, props.ctype] ++ [corpus_name]) ++ ["README.md"]) = true := by
      rw [isfile_putPath_append]
      exact hsent
    have hs2n := hs2
    simp only [List.append_assoc, List.cons_append, List.nil_append] at hs2n
    simp [h1, h2, countClones, countPulls, Event.isClone, Event.isPull, hs1n, hs2n]

/-- C7 witness: two successive imports of the sample greek remote corpus
from an empty data directory clone once, then pull once, with the sentinel
present after the second call. -/
theorem import_twice_one_clone_then_one_pull_witness :
    countClones (import_corpus d0 "greek" "c1" none none env0 (FSNode.dir [])).1.events = 1 ∧
    countPulls (import_corpus d0 "greek" "c1" none none env0
        (import_corpus d0 "greek" "c1" none none env0 (FSNode.dir [])).1.fs).1.events = 1 ∧
    (import_corpus d0 "greek" "c1" none none env0
        (import_corpus d0 "greek" "c1" none none env0 (FSNode.dir [])).1.fs).1.fs.isfile
        (make_cltk_path ["greek", "text"] ++ ["c1"] ++ ["README.md"]) = true :=
  ⟨(import_twice_one_clone_then_one_pull d0 "greek" "c1" [sampleRemote] sampleRemote
      env0 (FSNode.dir []) rfl rfl rfl rfl rfl (by decide) (by decide)).1,
   (import_twice_one_clone_then_one_pull d0 "greek" "c1" [sampleRemote] sampleRemote
      env0 (FSNode.dir []) rfl rfl rfl rfl rfl (by decide) (by decide)).2.2.2.2.2.1,
   (import_twice_one_clone_then_one_pull d0 "greek" "c1" [sampleRemote] sampleRemote
      env0 (FSNode.dir []) rfl rfl rfl rfl rfl (by decide) (by decide)).2.2.2.2.2.2.2⟩

end Cltk
